import Mathlib

/-!
Shallow embedding of the crop-recommendation core of the smartfarm
repository (src/utils/ml_models.py): the training pipeline
`train_crop_recommendation_model` and the query function `predict_crop`,
together with theorems checking the specification's claims about them.

Numeric values are modelled as rationals. External-library calls
(pandas, numpy, sklearn) are modelled by their documented semantics:
the numpy global generator under a fixed seed is a deterministic stream,
the seeded RandomForest fit is an abstract deterministic function, and
the seeded train/test split is a deterministic function of its input.
-/

namespace SmartFarm

/-- A cell of a pandas DataFrame: either a numeric value or a string
(crop labels). -/
inductive Cell where
  | num (q : ℚ)
  | str (s : String)
deriving DecidableEq

/-- One DataFrame row: an association list from column name to cell. -/
abbrev DFRow := List (String × Cell)

/-- A pandas DataFrame: its column list and its rows. -/
structure DataFrame where
  cols : List String
  rows : List DFRow
deriving DecidableEq

/-- Numeric cell access row[c]; defaults to 0 for absent keys (only ever
used on columns present in the frame). -/
def getNum (r : DFRow) (c : String) : ℚ :=
  match r.lookup c with
  | some (Cell.num q) => q
  | _ => 0

/-- String cell access, for the crop/label column. -/
def getStr (r : DFRow) (c : String) : String :=
  match r.lookup c with
  | some (Cell.str s) => s
  | _ => ""

/-- The required feature columns (ml_models.py line 23). -/
def required_features : List String :=
  ["nitrogen", "phosphorus", "potassium", "temperature", "humidity", "ph"]

/-- The column alias map (ml_models.py lines 26-33). -/
def applyAlias (c : String) : String :=
  if c = "n" then "nitrogen"
  else if c = "p" then "phosphorus"
  else if c = "k" then "potassium"
  else if c = "temp" then "temperature"
  else if c = "hum" then "humidity"
  else if c = "rain" then "rainfall"
  else c

/-- df.rename over the alias map (ml_models.py line 36). -/
def renameColumns (df : DataFrame) : DataFrame where
  cols := df.cols.map applyAlias
  rows := df.rows.map (fun r => r.map (fun kv => (applyAlias kv.1, kv.2)))

/-- Required features still missing after renaming (ml_models.py line 39). -/
def missingFeatures (df : DataFrame) : List String :=
  required_features.filter (fun f => !(df.cols.contains f))

/-- The synthetic per-row crop labeling rule assign_crop
(ml_models.py lines 50-63). -/
def assign_crop (r : DFRow) : String :=
  if getNum r "ph" < 6 ∧ getNum r "humidity" > 70 then "rice"
  else if getNum r "temperature" > 30 ∧ getNum r "humidity" < 50 then "cotton"
  else if getNum r "nitrogen" > 50 ∧ getNum r "potassium" > 50 then "maize"
  else if getNum r "ph" > 7 ∧ getNum r "temperature" < 20 then "wheat"
  else if getNum r "humidity" > 80 ∧ getNum r "temperature" > 25 then "banana"
  else "chickpea"

/-- Adds the synthesized crop column (ml_models.py line 66). -/
def addCropColumn (df : DataFrame) : DataFrame where
  cols := df.cols ++ ["crop"]
  rows := df.rows.map (fun r => r ++ [("crop", Cell.str (assign_crop r))])

/-- Label synthesis step: adds the synthetic crop column when neither a
crop nor a label column exists (ml_models.py lines 45-68). -/
def ensureLabels (df : DataFrame) : DataFrame :=
  if "crop" ∈ df.cols ∨ "label" ∈ df.cols then df else addCropColumn df

/-- Selection of the label column name (ml_models.py line 71). -/
def cropColumn (df : DataFrame) : String :=
  if "crop" ∈ df.cols then "crop" else "label"

/-- The label series y = df[crop_column] (ml_models.py line 75). -/
def labelValues (df : DataFrame) : List String :=
  df.rows.map (fun r => getStr r (cropColumn df))

/-- Deterministic model of the numpy global random generator under a
fixed seed: a linear congruential generator on a seed state. -/
structure RNG where
  seed : ℕ
deriving DecidableEq

/-- One raw draw from the generator together with the next state. -/
def nextNat (g : RNG) : ℕ × RNG :=
  (g.seed % 2147483648, ⟨(g.seed * 1103515245 + 12345) % 2147483648⟩)

/-- Model of np.random.randint(lo, hi): an integer in [lo, hi), as a
deterministic function of the generator state. -/
def randIntR (lo hi : ℤ) (g : RNG) : ℤ × RNG :=
  let p := nextNat g
  (lo + (p.1 : ℤ) % (hi - lo), p.2)

/-- Model of np.random.uniform(lo, hi): lo + f * (hi - lo) with a
state-derived fraction f in [0, 1). -/
def uniformR (lo hi : ℚ) (g : RNG) : ℚ × RNG :=
  let p := nextNat g
  (lo + ((p.1 % 1048576 : ℕ) : ℚ) / 1048576 * (hi - lo), p.2)

/-- Model of np.random.choice(l): a state-selected element of l. -/
def choiceR (l : List String) (g : RNG) : String × RNG :=
  let p := nextNat g
  (l.getD (p.1 % l.length) "", p.2)

/-- The 23 crop names used by the synthetic-data generator
(ml_models.py lines 91-97). -/
def syntheticCropChoices : List String :=
  ["rice", "wheat", "maize", "chickpea", "kidneybeans",
   "pigeonpeas", "mothbeans", "mungbean", "blackgram", "lentil",
   "pomegranate", "banana", "mango", "grapes", "watermelon",
   "muskmelon", "apple", "orange", "papaya", "coconut",
   "cotton", "jute", "coffee"]

/-- One synthetic row (ml_models.py lines 84-98): each feature drawn by
the corresponding numpy primitive, the crop drawn from the 23-name list. -/
def syntheticRow (cropCol : String) (g : RNG) : DFRow × RNG :=
  let n := randIntR 0 140 g
  let p := randIntR 5 145 n.2
  let k := randIntR 5 205 p.2
  let t := uniformR (883/100) (4368/100) k.2
  let h := uniformR (1425/100) (9998/100) t.2
  let ph := uniformR (35/10) (994/100) h.2
  let c := choiceR syntheticCropChoices ph.2
  ([("nitrogen", Cell.num (n.1 : ℚ)), ("phosphorus", Cell.num (p.1 : ℚ)),
    ("potassium", Cell.num (k.1 : ℚ)), ("temperature", Cell.num t.1),
    ("humidity", Cell.num h.1), ("ph", Cell.num ph.1),
    (cropCol, Cell.str c.1)], c.2)

/-- The synthetic batch built by the loop `for i in range(50)`
(ml_models.py lines 82-101), for an arbitrary count. -/
def syntheticRows (cropCol : String) : ℕ → RNG → List DFRow × RNG
  | 0, g => ([], g)
  | Nat.succ m, g =>
    let r := syntheticRow cropCol g
    let rest := syntheticRows cropCol m r.2
    (r.1 :: rest.1, rest.2)

/-- Distinct-label check and synthetic augmentation (ml_models.py
lines 77-109): appends the 50 synthetic rows when fewer than two distinct
labels exist. -/
def augmentIfDegenerate (df : DataFrame) (g : RNG) : DataFrame :=
  if (labelValues df).dedup.length < 2 then
    { df with rows := df.rows ++ (syntheticRows (cropColumn df) 50 g).1 }
  else df

/-- The data-preparation phase of train_crop_recommendation_model
(ml_models.py lines 36-109): rename, missing-feature check, label
synthesis, degenerate-label augmentation. Returns none exactly when
required features are missing after renaming. -/
def trainData (df : DataFrame) (g : RNG) : Option DataFrame :=
  if missingFeatures (renameColumns df) = [] then
    some (augmentIfDegenerate (ensureLabels (renameColumns df)) g)
  else none

/-- The feature matrix X = df[required_features] (ml_models.py lines 74,
105). -/
def featureMatrix (df : DataFrame) : List (List ℚ) :=
  df.rows.map (fun r => required_features.map (getNum r))

/-- Mean of a list of rationals (0 for the empty list). -/
def listMean (l : List ℚ) : ℚ := l.sum / l.length

/-- Values of feature column j of the matrix X. -/
def colValues (X : List (List ℚ)) (j : ℕ) : List ℚ :=
  X.map (fun row => row.getD j 0)

/-- Per-feature means fitted by the StandardScaler (ml_models.py
line 113). -/
def colMeans (X : List (List ℚ)) : List ℚ :=
  (List.range required_features.length).map (fun j => listMean (colValues X j))

/-- Per-feature population variances fitted by the StandardScaler
(ml_models.py line 113). -/
def colVars (X : List (List ℚ)) : List ℚ :=
  (List.range required_features.length).map (fun j =>
    listMean ((colValues X j).map (fun v => (v - listMean (colValues X j)) ^ 2)))

/-- StandardScaler.transform on one row, given per-feature means and
standard deviations: feature j becomes (v - mean j) / std j. -/
def scaleRow (means stds : List ℚ) (xs : List ℚ) : List ℚ :=
  (means.zip stds).zipWith (fun ms x => (x - ms.1) / ms.2) xs

/-- StandardScaler.fit_transform (ml_models.py lines 112-113); sqrtFn
models the real square root applied to the per-feature variance
(sklearn internals, outside this repository). -/
def scaleMatrix (sqrtFn : ℚ → ℚ) (X : List (List ℚ)) : List (List ℚ) :=
  X.map (scaleRow (colMeans X) ((colVars X).map sqrtFn))

/-- Deterministic model of train_test_split with test_size=0.2 and
random_state=42 (ml_models.py line 116): with the seed fixed, the split
is a deterministic function of its input; modelled as holding out the
last fifth of the rows. Order: X_train, X_test, y_train, y_test. -/
def trainTestSplit (X : List (List ℚ)) (y : List String) :
    List (List ℚ) × List (List ℚ) × List String × List String :=
  let n := X.length
  (X.take (n - n / 5), X.drop (n - n / 5), y.take (n - n / 5), y.drop (n - n / 5))

/-- A fitted classifier: its class-prediction and class-probability
functions (the RandomForest internals are outside this repository and
stay abstract). -/
structure Model where
  predictClass : List ℚ → String
  predictProbaRow : List ℚ → List ℚ

/-- The result quadruple of train_crop_recommendation_model. -/
structure TrainResult where
  model : Option Model
  features : Option (List String)
  crops : Option (List String)
  accuracy : ℚ

/-- The failure quadruple (None, None, None, 0) returned on missing
features and by the try/except handler (ml_models.py lines 42, 131). -/
def noModelResult : TrainResult := ⟨none, none, none, 0⟩

/-- accuracy_score(y_test, y_pred) * 100 (ml_models.py line 124). -/
def accuracyScore (yTest yPred : List String) : ℚ :=
  (((yTest.zip yPred).filter (fun p => p.1 == p.2)).length : ℚ) / yTest.length * 100

/-- Scaling and splitting of the prepared table (ml_models.py
lines 112-116), giving the tuple X_train, X_test, y_train, y_test. -/
def trainSplit (sqrtFn : ℚ → ℚ) (df : DataFrame) :
    List (List ℚ) × List (List ℚ) × List String × List String :=
  trainTestSplit (scaleMatrix sqrtFn (featureMatrix df)) (labelValues df)

/-- train_crop_recommendation_model (ml_models.py lines 11-131). fitRF
abstracts RandomForestClassifier(n_estimators=100, random_state=42).fit,
which under its fixed seed is a deterministic function of its training
data; a fit that raises is an Except.error, absorbed by the try/except
of the source into the no-model result. -/
def train_crop_recommendation_model
    (fitRF : List (List ℚ) → List String → Except String Model)
    (sqrtFn : ℚ → ℚ) (df : DataFrame) (g : RNG) : TrainResult :=
  match trainData df g with
  | none => noModelResult
  | some prepared =>
    match fitRF (trainSplit sqrtFn prepared).1 (trainSplit sqrtFn prepared).2.2.1 with
    | Except.error _ => noModelResult
    | Except.ok m =>
      { model := some m, features := some required_features,
        crops := some (List.insertionSort (· ≤ ·) (labelValues prepared).dedup),
        accuracy := accuracyScore (trainSplit sqrtFn prepared).2.2.2
          ((trainSplit sqrtFn prepared).2.1.map m.predictClass) }

/-- Python's round builtin on a rational: round half to even. -/
def pyRound (q : ℚ) : ℤ :=
  if q - ⌊q⌋ < 1/2 then ⌊q⌋
  else if q - ⌊q⌋ > 1/2 then ⌊q⌋ + 1
  else if ⌊q⌋ % 2 = 0 then ⌊q⌋ else ⌊q⌋ + 1

/-- The hard-coded ideal parameter ranges (ml_models.py lines 170-211);
none for crops outside the five covered ones. -/
def ideal_params (crop : String) : Option (List (String × ℚ × ℚ)) :=
  if crop = "rice" then some
    [("nitrogen", 80, 120), ("phosphorus", 40, 60), ("potassium", 40, 60),
     ("temperature", 22, 32), ("humidity", 70, 90), ("ph", 11/2, 13/2)]
  else if crop = "wheat" then some
    [("nitrogen", 100, 140), ("phosphorus", 50, 80), ("potassium", 40, 70),
     ("temperature", 15, 25), ("humidity", 50, 70), ("ph", 6, 7)]
  else if crop = "maize" then some
    [("nitrogen", 80, 120), ("phosphorus", 40, 80), ("potassium", 30, 60),
     ("temperature", 20, 30), ("humidity", 50, 80), ("ph", 29/5, 34/5)]
  else if crop = "chickpea" then some
    [("nitrogen", 40, 60), ("phosphorus", 60, 90), ("potassium", 20, 40),
     ("temperature", 15, 30), ("humidity", 40, 60), ("ph", 11/2, 7)]
  else if crop = "cotton" then some
    [("nitrogen", 80, 120), ("phosphorus", 40, 60), ("potassium", 40, 80),
     ("temperature", 20, 35), ("humidity", 60, 70), ("ph", 29/5, 7)]
  else none

/-- Per-parameter match percentage (ml_models.py lines 222-238): the
distance-to-range formula clamped below at 0, then rounded and capped
at 100. -/
def matchPercent (lo hi v : ℚ) : ℤ :=
  min 100 (pyRound
    (if v < lo then max 0 (100 - (lo - v) / ((hi - lo) / 2) * 100)
     else if v > hi then max 0 (100 - (v - hi) / ((hi - lo) / 2) * 100)
     else 100))

/-- Lookup of input_data[param] (always succeeds in the executions that
reach the match loop, since every feature was already resolved at
ml_models.py line 148). -/
def lookupQ (input : List (String × ℚ)) (c : String) : ℚ :=
  (input.lookup c).getD 0

/-- The per-crop matches dictionary built by the inner loop
(ml_models.py lines 217-239): one entry per feature that has an ideal
range for this crop. -/
def cropMatches (ranges : List (String × ℚ × ℚ)) (input : List (String × ℚ))
    (features : List String) : List (String × ℤ) :=
  features.filterMap (fun param =>
    match ranges.lookup param with
    | some r => some (param, matchPercent r.1 r.2 (lookupQ input param))
    | none => none)

/-- A reported per-parameter match value: a number or "Unknown". -/
inductive MatchVal where
  | pct (n : ℤ)
  | unknown
deriving DecidableEq

/-- A reported ideal range: a pair or "Unknown". -/
inductive RangeVal where
  | range (lo hi : ℚ)
  | unknown
deriving DecidableEq

/-- One crop's entry in parameter_match_info (ml_models.py
lines 243-247 and 252-256). -/
structure MatchInfo where
  matchesDict : List (String × MatchVal)
  overall : ℤ
  ideal_ranges : List (String × RangeVal)
deriving DecidableEq

/-- The covered-crop entry (ml_models.py lines 242-247): the rounded
per-parameter matches, overall = round of their mean, and the ideal
ranges restricted to the model's features. -/
def coveredInfo (ranges : List (String × ℚ × ℚ)) (input : List (String × ℚ))
    (features : List String) : MatchInfo :=
  let ms := cropMatches ranges input features
  { matchesDict := ms.map (fun p => (p.1, MatchVal.pct p.2)),
    overall := pyRound (((ms.map Prod.snd).sum : ℚ) / ms.length),
    ideal_ranges := ranges.filterMap (fun p =>
      if p.1 ∈ features then some (p.1, RangeVal.range p.2.1 p.2.2) else none) }

/-- The uncovered-crop entry (ml_models.py lines 252-256): all matches
"Unknown" and overall = round of the model probability. -/
def unknownInfo (features : List String) (prob : ℚ) : MatchInfo :=
  { matchesDict := features.map (fun f => (f, MatchVal.unknown)),
    overall := pyRound prob,
    ideal_ranges := features.map (fun f => (f, RangeVal.unknown)) }

/-- Python dict assignment d[k] = v on an insertion-ordered association
list: replaces the value in place when the key exists, else appends. -/
def dictInsert (d : List (String × MatchInfo)) (k : String) (v : MatchInfo) :
    List (String × MatchInfo) :=
  if (d.lookup k).isSome then d.map (fun p => if p.1 = k then (k, v) else p)
  else d ++ [(k, v)]

/-- The first info loop (ml_models.py lines 214-247): adds an entry for
each recommended crop that has ideal ranges and a nonempty matches
dictionary. -/
def addCoveredInfo (input : List (String × ℚ)) (features : List String) :
    List String → List (String × MatchInfo) → List (String × MatchInfo)
  | [], acc => acc
  | c :: rest, acc =>
    match ideal_params c with
    | some ranges =>
      if cropMatches ranges input features = [] then
        addCoveredInfo input features rest acc
      else
        addCoveredInfo input features rest
          (dictInsert acc c (coveredInfo ranges input features))
    | none => addCoveredInfo input features rest acc

/-- The second info loop (ml_models.py lines 250-256): adds an
"Unknown" entry for every top crop not yet present. -/
def addUnknownInfo (features : List String) :
    List (String × ℚ) → List (String × MatchInfo) → List (String × MatchInfo)
  | [], acc => acc
  | cp :: rest, acc =>
    if (acc.lookup cp.1).isSome then addUnknownInfo features rest acc
    else addUnknownInfo features rest (acc ++ [(cp.1, unknownInfo features cp.2)])

/-- The order that models Python's stable sort with key = probability and
reverse = True (ml_models.py line 159): on the index-tagged pair list,
probability strictly greater first, ties by original position. -/
def rankRel (a b : (String × ℚ) × ℕ) : Prop :=
  b.1.2 < a.1.2 ∨ (a.1.2 = b.1.2 ∧ a.2 ≤ b.2)

instance : DecidableRel rankRel := fun a b => by unfold rankRel; infer_instance

instance : IsTotal ((String × ℚ) × ℕ) rankRel where
  total a b := by
    unfold rankRel
    rcases lt_trichotomy a.1.2 b.1.2 with h | h | h
    · exact Or.inr (Or.inl h)
    · rcases Nat.le_total a.2 b.2 with h2 | h2
      · exact Or.inl (Or.inr ⟨h, h2⟩)
      · exact Or.inr (Or.inr ⟨h.symm, h2⟩)
    · exact Or.inl (Or.inl h)

instance : IsTrans ((String × ℚ) × ℕ) rankRel where
  trans a b c hab hbc := by
    unfold rankRel at hab hbc ⊢
    rcases hab with h1 | ⟨h1, h1i⟩ <;> rcases hbc with h2 | ⟨h2, h2i⟩
    · exact Or.inl (h2.trans h1)
    · exact Or.inl (h2 ▸ h1)
    · exact Or.inl (h1 ▸ h2)
    · exact Or.inr ⟨h1.trans h2, h1i.trans h2i⟩

/-- crop_probs after scaling to percentages and the stable descending
sort (ml_models.py lines 158-159), each pair tagged with its original
position in the sorted-label list. -/
def sortedCropProbs (crops : List String) (probs : List ℚ) :
    List ((String × ℚ) × ℕ) :=
  List.insertionSort rankRel
    (((crops.zip (probs.map (fun p => p * 100))).enum).map (fun p => (p.2, p.1)))

/-- crop_probs[:5]: the top five crops with their percentage scores
(ml_models.py lines 162-163). -/
def topCropProbs (crops : List String) (probs : List ℚ) : List (String × ℚ) :=
  ((sortedCropProbs crops probs).map Prod.fst).take 5

/-- The input row assembled at ml_models.py line 148: the raw feature
values looked up in the query dict, with no standardization applied; a
missing key is a KeyError, modelled as none. -/
def prepareInput (features : List String) (input_data : List (String × ℚ)) :
    Option (List ℚ) :=
  features.mapM (fun f => input_data.lookup f)

/-- predict_crop (ml_models.py lines 133-262). The prepareInput lookup
models input_data[feature] for each feature: a missing key raises
KeyError, which the try/except turns into the empty result
([], [], empty dict). -/
def predict_crop (model : Model) (features : List String)
    (crops : List String) (input_data : List (String × ℚ)) :
    List String × List ℚ × List (String × MatchInfo) :=
  match prepareInput features input_data with
  | none => ([], [], [])
  | some input_values =>
    let probs := model.predictProbaRow input_values
    let top := topCropProbs crops probs
    let recommended := top.map Prod.fst
    (recommended, top.map Prod.snd,
     addUnknownInfo features top (addCoveredInfo input_data features recommended []))

/-- The train-then-predict pipeline: train on the table with the given
generator state, then answer the query observation; none when training
produced no model. -/
def recommendPipeline
    (fitRF : List (List ℚ) → List String → Except String Model)
    (sqrtFn : ℚ → ℚ) (df : DataFrame) (g : RNG)
    (input_data : List (String × ℚ)) :
    Option (ℚ × (List String × List ℚ × List (String × MatchInfo))) :=
  let t := train_crop_recommendation_model fitRF sqrtFn df g
  match t.model, t.features, t.crops with
  | some m, some fs, some cs => some (t.accuracy, predict_crop m fs cs input_data)
  | _, _, _ => none

/-- The specification's unrounded per-parameter match formula (spec 4.4),
stated in the spec's own branch order, for comparison with the source's
matchPercent. -/
def specMatchFormula (lo hi v : ℚ) : ℚ :=
  if lo ≤ v ∧ v ≤ hi then 100
  else if v < lo then max 0 (100 - (lo - v) / ((hi - lo) / 2) * 100)
  else max 0 (100 - (v - hi) / ((hi - lo) / 2) * 100)

/-- A concrete labeled training table: all six features plus a crop
column, two rows, two distinct crops. Its nitrogen column has mean 50. -/
def sampleDF : DataFrame :=
  ⟨["nitrogen", "phosphorus", "potassium", "temperature", "humidity", "ph", "crop"],
   [[("nitrogen", Cell.num 40), ("phosphorus", Cell.num 30),
     ("potassium", Cell.num 30), ("temperature", Cell.num 20),
     ("humidity", Cell.num 60), ("ph", Cell.num 7), ("crop", Cell.str "wheat")],
    [("nitrogen", Cell.num 60), ("phosphorus", Cell.num 40),
     ("potassium", Cell.num 40), ("temperature", Cell.num 25),
     ("humidity", Cell.num 65), ("ph", Cell.num 6), ("crop", Cell.str "rice")]]⟩

/-- A concrete table missing every canonical feature but nitrogen. -/
def dfMissing : DataFrame := ⟨["nitrogen"], []⟩

/-- A concrete unlabeled one-row table written with aliased column names;
its single row synthesizes to one label, so augmentation triggers. -/
def degenerateDF : DataFrame :=
  ⟨["n", "p", "k", "temp", "hum", "ph"],
   [[("n", Cell.num 10), ("p", Cell.num 10), ("k", Cell.num 10),
     ("temp", Cell.num 25), ("hum", Cell.num 60), ("ph", Cell.num 7)]]⟩

/-- A concrete fit function that always succeeds with a fixed model. -/
def fitConst : List (List ℚ) → List String → Except String Model :=
  fun _ _ => Except.ok ⟨fun _ => "rice", fun _ => [1/2, 1/4, 1/4]⟩

/-- A concrete fit function that always raises. -/
def fitFail : List (List ℚ) → List String → Except String Model :=
  fun _ _ => Except.error "boom"

/-- A complete query observation with integer-valued features. -/
def obsComplete : List (String × ℚ) :=
  [("nitrogen", 50), ("phosphorus", 30), ("potassium", 30),
   ("temperature", 25), ("humidity", 60), ("ph", 7)]

/-- The feature matrix of sampleDF, written out. -/
def sampleMatrix : List (List ℚ) :=
  [[40, 30, 30, 20, 60, 7], [60, 40, 40, 25, 65, 6]]

/-- The observation whose every feature sits exactly at the corresponding
column mean of sampleDF. -/
def obsAtMean : List (String × ℚ) :=
  [("nitrogen", 50), ("phosphorus", 35), ("potassium", 35),
   ("temperature", 45/2), ("humidity", 125/2), ("ph", 13/2)]

/-- The raw value list of obsAtMean in canonical feature order. -/
def obsAtMeanVals : List ℚ := [50, 35, 35, 45/2, 125/2, 13/2]

/-- A concrete model for the query-side examples: fixed class
probabilities banana 0.5, rice 0.3, wheat 0.2. -/
def modelC5 : Model := ⟨fun _ => "banana", fun _ => [1/2, 3/10, 1/5]⟩

/-- The same classes with reshuffled probabilities banana 0.2, rice 0.3,
wheat 0.5. -/
def modelC10 : Model := ⟨fun _ => "wheat", fun _ => [1/5, 3/10, 1/2]⟩

/-- The sorted class-label list for the query-side examples. -/
def cropsC5 : List String := ["banana", "rice", "wheat"]

/-- A query observation inside all of rice's ideal ranges except ph,
which sits 0.05 below rice's lower ph bound 5.5. -/
def obsC5 : List (String × ℚ) :=
  [("nitrogen", 100), ("phosphorus", 50), ("potassium", 50),
   ("temperature", 27), ("humidity", 80), ("ph", 109/20)]

/-- The value list of obsC5 in canonical feature order. -/
def obsC5Vals : List ℚ := [100, 50, 50, 27, 80, 109/20]

/-- Rice's hard-coded ideal ranges, written out. -/
def riceRanges : List (String × ℚ × ℚ) :=
  [("nitrogen", 80, 120), ("phosphorus", 40, 60), ("potassium", 40, 60),
   ("temperature", 22, 32), ("humidity", 70, 90), ("ph", 11/2, 13/2)]

/-- A query observation with ph = 15, outside the 0-14 domain. -/
def obsPh15 : List (String × ℚ) :=
  [("nitrogen", 50), ("phosphorus", 30), ("potassium", 30),
   ("temperature", 25), ("humidity", 60), ("ph", 15)]

/-- The value list of obsPh15 in canonical feature order. -/
def obsPh15Vals : List ℚ := [50, 30, 30, 25, 60, 15]

/-- A query observation missing the required ph field. -/
def obsMissingPh : List (String × ℚ) :=
  [("nitrogen", 50), ("phosphorus", 30), ("potassium", 30),
   ("temperature", 25), ("humidity", 60)]

/-- The bounds claim C9 makes of one synthetic row: every feature inside
its published range and the crop drawn from the 23-name list. -/
def syntheticRowInBounds (cropCol : String) (r : DFRow) : Prop :=
  0 ≤ getNum r "nitrogen" ∧ getNum r "nitrogen" < 140 ∧
  5 ≤ getNum r "phosphorus" ∧ getNum r "phosphorus" < 145 ∧
  5 ≤ getNum r "potassium" ∧ getNum r "potassium" < 205 ∧
  883/100 ≤ getNum r "temperature" ∧ getNum r "temperature" < 4368/100 ∧
  1425/100 ≤ getNum r "humidity" ∧ getNum r "humidity" < 9998/100 ∧
  35/10 ≤ getNum r "ph" ∧ getNum r "ph" < 994/100 ∧
  getStr r cropCol ∈ syntheticCropChoices

/-- A model producing a probability tie between the second and third
class, to exercise the stable tie-break. -/
def modelC6 : Model := ⟨fun _ => "banana", fun _ => [1/2, 1/4, 1/4]⟩

theorem lookup_append_of_none {α β : Type} [BEq α] (l1 l2 : List (α × β))
    (k : α) (h : l1.lookup k = none) : (l1 ++ l2).lookup k = l2.lookup k := by
  induction l1 with
  | nil => simp
  | cons a tl ih =>
    rw [List.cons_append] at *
    simp only [List.lookup] at h ⊢
    cases hk : (k == a.1) with
    | true => simp only [hk] at h; exact Option.noConfusion h
    | false => simp only [hk] at h ⊢; exact ih h

theorem lookup_append_of_some {α β : Type} [BEq α] (l1 l2 : List (α × β))
    (k : α) (v : β) (h : l1.lookup k = some v) :
    (l1 ++ l2).lookup k = some v := by
  induction l1 with
  | nil => simp at h
  | cons a tl ih =>
    rw [List.cons_append] at *
    simp only [List.lookup] at h ⊢
    cases hk : (k == a.1) with
    | true => simp only [hk] at h ⊢; exact h
    | false => simp only [hk] at h ⊢; exact ih h


theorem lookup_map_replace_self (d : List (String × MatchInfo)) (k : String)
    (v : MatchInfo) (h : (d.lookup k).isSome) :
    ((d.map (fun p => if p.1 = k then (k, v) else p)).lookup k) = some v := by
  induction d with
  | nil => simp at h
  | cons a tl ih =>
    simp only [List.lookup] at h
    by_cases hak : a.1 = k
    · simp only [List.map_cons]
      rw [if_pos hak]
      simp only [List.lookup, beq_self_eq_true]
    · have hk : (k == a.1) = false := beq_eq_false_iff_ne.mpr (fun he => hak he.symm)
      simp only [hk] at h
      simp only [List.map_cons]
      rw [if_neg hak]
      simp only [List.lookup, hk]
      exact ih h

theorem lookup_map_replace_ne (d : List (String × MatchInfo)) (k : String)
    (v : MatchInfo) (k' : String) (h : k' ≠ k) :
    ((d.map (fun p => if p.1 = k then (k, v) else p)).lookup k') = d.lookup k' := by
  induction d with
  | nil => rfl
  | cons a tl ih =>
    by_cases hak : a.1 = k
    · have h1 : (k' == k) = false := beq_eq_false_iff_ne.mpr h
      have h2 : (k' == a.1) = false := beq_eq_false_iff_ne.mpr (hak ▸ h)
      simp only [List.map_cons]
      rw [if_pos hak]
      simp only [List.lookup, h1, h2]
      exact ih
    · simp only [List.map_cons]
      rw [if_neg hak]
      simp only [List.lookup]
      cases hk : (k' == a.1) with
      | true => rfl
      | false => exact ih

theorem lookup_dictInsert_self (d : List (String × MatchInfo)) (k : String)
    (v : MatchInfo) : (dictInsert d k v).lookup k = some v := by
  unfold dictInsert
  by_cases hk : (d.lookup k).isSome
  · rw [if_pos hk]
    exact lookup_map_replace_self d k v hk
  · rw [if_neg hk]
    rw [lookup_append_of_none d _ k (Option.not_isSome_iff_eq_none.mp hk)]
    simp [List.lookup]

theorem lookup_dictInsert_ne (d : List (String × MatchInfo)) (k : String)
    (v : MatchInfo) (k' : String) (h : k' ≠ k) :
    (dictInsert d k v).lookup k' = d.lookup k' := by
  unfold dictInsert
  by_cases hk : (d.lookup k).isSome
  · rw [if_pos hk]
    exact lookup_map_replace_ne d k v k' h
  · rw [if_neg hk]
    by_cases hk2 : (d.lookup k').isSome
    · obtain ⟨w, hw⟩ := Option.isSome_iff_exists.mp hk2
      rw [lookup_append_of_some d _ k' w hw, hw]
    · have hn := Option.not_isSome_iff_eq_none.mp hk2
      rw [lookup_append_of_none d _ k' hn, hn]
      simp [List.lookup, beq_eq_false_iff_ne.mpr h]

theorem lookup_addCoveredInfo_some (input : List (String × ℚ))
    (features : List String) (c : String) (ranges : List (String × ℚ × ℚ))
    (h1 : ideal_params c = some ranges)
    (h2 : cropMatches ranges input features ≠ []) :
    ∀ (rec : List String) (acc : List (String × MatchInfo)),
      (c ∈ rec ∨ acc.lookup c = some (coveredInfo ranges input features)) →
      (addCoveredInfo input features rec acc).lookup c =
        some (coveredInfo ranges input features) := by
  intro rec
  induction rec with
  | nil =>
    intro acc h
    rcases h with h | h
    · cases h
    · simpa [addCoveredInfo] using h
  | cons d rest ih =>
    intro acc h
    cases hip : ideal_params d with
    | none =>
      simp only [addCoveredInfo, hip]
      apply ih
      rcases h with h | h
      · rcases List.mem_cons.mp h with rfl | h
        · rw [h1] at hip; cases hip
        · exact Or.inl h
      · exact Or.inr h
    | some rng =>
      by_cases hm : cropMatches rng input features = []
      · simp only [addCoveredInfo, hip, if_pos hm]
        apply ih
        rcases h with h | h
        · rcases List.mem_cons.mp h with rfl | h
          · rw [h1] at hip
            injection hip with he
            exact absurd (he ▸ hm) h2
          · exact Or.inl h
        · exact Or.inr h
      · simp only [addCoveredInfo, hip, if_neg hm]
        apply ih
        rcases h with h | h
        · rcases List.mem_cons.mp h with rfl | h
          · right
            rw [h1] at hip
            injection hip with he
            rw [he]
            exact lookup_dictInsert_self acc c _
          · exact Or.inl h
        · right
          by_cases hdc : d = c
          · subst hdc
            rw [h1] at hip
            injection hip with he
            rw [he]
            exact lookup_dictInsert_self acc d _
          · rw [lookup_dictInsert_ne acc d _ c (fun he => hdc he.symm)]
            exact h

theorem lookup_addCoveredInfo_none (input : List (String × ℚ))
    (features : List String) (c : String) (h1 : ideal_params c = none) :
    ∀ (rec : List String) (acc : List (String × MatchInfo)),
      acc.lookup c = none →
      (addCoveredInfo input features rec acc).lookup c = none := by
  intro rec
  induction rec with
  | nil =>
    intro acc h
    simpa [addCoveredInfo] using h
  | cons d rest ih =>
    intro acc h
    cases hip : ideal_params d with
    | none =>
      simp only [addCoveredInfo, hip]
      exact ih acc h
    | some rng =>
      by_cases hm : cropMatches rng input features = []
      · simp only [addCoveredInfo, hip, if_pos hm]
        exact ih acc h
      · simp only [addCoveredInfo, hip, if_neg hm]
        apply ih
        have hdc : d ≠ c := fun he => by rw [he, h1] at hip; cases hip
        rw [lookup_dictInsert_ne acc d _ c (fun he => hdc he.symm)]
        exact h

theorem lookup_addUnknownInfo_some (features : List String) :
    ∀ (tops : List (String × ℚ)) (acc : List (String × MatchInfo))
      (c : String) (v : MatchInfo),
      acc.lookup c = some v →
      (addUnknownInfo features tops acc).lookup c = some v := by
  intro tops
  induction tops with
  | nil =>
    intro acc c v h
    simpa [addUnknownInfo] using h
  | cons cp rest ih =>
    intro acc c v h
    by_cases hcp : (acc.lookup cp.1).isSome
    · simp only [addUnknownInfo, if_pos hcp]
      exact ih acc c v h
    · simp only [addUnknownInfo, if_neg hcp]
      exact ih _ c v (lookup_append_of_some acc _ c v h)

theorem lookup_addUnknownInfo_new (features : List String) :
    ∀ (tops : List (String × ℚ)) (acc : List (String × MatchInfo))
      (c : String) (p : ℚ),
      acc.lookup c = none → tops.lookup c = some p →
      (addUnknownInfo features tops acc).lookup c =
        some (unknownInfo features p) := by
  intro tops
  induction tops with
  | nil =>
    intro acc c p h1 h2
    simp at h2
  | cons cp rest ih =>
    intro acc c p h1 h2
    by_cases hc : c = cp.1
    · subst hc
      have hp : p = cp.2 := by
        simp only [List.lookup, beq_self_eq_true] at h2
        exact (Option.some_inj.mp h2).symm
      have hcp : ¬ (List.lookup cp.1 acc).isSome = true := by
        rw [h1]; simp
      simp only [addUnknownInfo, if_neg hcp]
      subst hp
      apply lookup_addUnknownInfo_some
      rw [lookup_append_of_none acc _ cp.1 h1]
      simp [List.lookup]
    · have hk : (c == cp.1) = false := beq_eq_false_iff_ne.mpr hc
      simp only [List.lookup, hk] at h2
      by_cases hcp : (acc.lookup cp.1).isSome
      · simp only [addUnknownInfo, if_pos hcp]
        exact ih acc c p h1 h2
      · simp only [addUnknownInfo, if_neg hcp]
        apply ih _ c p _ h2
        rw [lookup_append_of_none acc _ c h1]
        simp [List.lookup, hk]

theorem pyRound_nonneg {q : ℚ} (h : 0 ≤ q) : 0 ≤ pyRound q := by
  have hf : (0 : ℤ) ≤ ⌊q⌋ := Int.floor_nonneg.2 h
  unfold pyRound
  split_ifs <;> omega

theorem matchPercent_raw_eq_spec (lo hi v : ℚ) :
    (if v < lo then max 0 (100 - (lo - v) / ((hi - lo) / 2) * 100)
     else if v > hi then max 0 (100 - (v - hi) / ((hi - lo) / 2) * 100)
     else (100 : ℚ)) = specMatchFormula lo hi v := by
  unfold specMatchFormula
  by_cases h1 : v < lo
  · rw [if_pos h1, if_neg (fun hc => absurd h1 (not_lt.2 hc.1)), if_pos h1]
  · by_cases h2 : v > hi
    · rw [if_neg h1, if_pos h2, if_neg (fun hc => absurd h2 (not_lt.2 hc.2)),
        if_neg h1]
    · rw [if_neg h1, if_neg h2, if_pos ⟨not_lt.1 h1, not_lt.1 h2⟩]

/-- C4 (amended): the reported per-parameter match percentage equals the
Python round (half to even) of the spec's distance-to-range formula,
capped at 100; it always lies in [0, 100]; and a value at or inside the
ideal boundaries scores exactly 100. -/
theorem claim4_match_percent (lo hi v : ℚ) :
    matchPercent lo hi v = min 100 (pyRound (specMatchFormula lo hi v))
  ∧ 0 ≤ matchPercent lo hi v ∧ matchPercent lo hi v ≤ 100
  ∧ (lo ≤ v → v ≤ hi → matchPercent lo hi v = 100) := by
  have hraw : (0 : ℚ) ≤
      (if v < lo then max 0 (100 - (lo - v) / ((hi - lo) / 2) * 100)
       else if v > hi then max 0 (100 - (v - hi) / ((hi - lo) / 2) * 100)
       else (100 : ℚ)) := by
    split_ifs
    · exact le_max_left 0 _
    · exact le_max_left 0 _
    · norm_num
  refine ⟨?_, ?_, ?_, ?_⟩
  · unfold matchPercent
    rw [matchPercent_raw_eq_spec]
  · unfold matchPercent
    exact le_min (by norm_num) (pyRound_nonneg hraw)
  · unfold matchPercent
    exact min_le_left _ _
  · intro h1 h2
    unfold matchPercent
    rw [if_neg (not_lt.2 h1), if_neg (not_lt.2 h2)]
    norm_num [pyRound]

/-- C4 counterexample: for rice's temperature range (22, 32) and the
observed value 21.97, the code reports 99 while the claim's unrounded
formula yields 99.4; the reported value is the rounded one. -/
theorem claim4_counterexample :
    (matchPercent 22 32 (2197/100) : ℚ) ≠ specMatchFormula 22 32 (2197/100) := by
  have h1 : specMatchFormula 22 32 (2197/100) = 497/5 := by
    unfold specMatchFormula
    rw [if_neg (by norm_num), if_pos (by norm_num),
      max_eq_right (by norm_num : (0:ℚ) ≤ 100 - (22 - 2197/100) / ((32 - 22) / 2) * 100)]
    norm_num
  have h2 : matchPercent 22 32 (2197/100) = 99 := by
    unfold matchPercent
    rw [matchPercent_raw_eq_spec, h1]
    have hfl : ⌊(497/5 : ℚ)⌋ = 99 := by norm_num [Int.floor_eq_iff]
    unfold pyRound
    rw [hfl]
    norm_num
  rw [h2, h1]
  norm_num

/-- C4 witness: at the boundary value 32 of rice's temperature range the
match is exactly 100, and 0 ≤ 100 holds. -/
theorem claim4_witness : matchPercent 22 32 32 = 100 :=
  (claim4_match_percent 22 32 32).2.2.2 (by norm_num) le_rfl

/-- C8: for every row, the synthesized label follows the fixed rule chain
evaluated in order — rice, else cotton, else maize, else wheat, else
banana, otherwise chickpea — and when neither a crop nor a label column
exists the crop column is synthesized row by row with this rule. -/
theorem claim8_label_rule_chain (r : DFRow) :
    ((getNum r "ph" < 6 ∧ getNum r "humidity" > 70 → assign_crop r = "rice")
  ∧ (¬(getNum r "ph" < 6 ∧ getNum r "humidity" > 70) →
      (getNum r "temperature" > 30 ∧ getNum r "humidity" < 50 →
        assign_crop r = "cotton")
    ∧ (¬(getNum r "temperature" > 30 ∧ getNum r "humidity" < 50) →
        (getNum r "nitrogen" > 50 ∧ getNum r "potassium" > 50 →
          assign_crop r = "maize")
      ∧ (¬(getNum r "nitrogen" > 50 ∧ getNum r "potassium" > 50) →
          (getNum r "ph" > 7 ∧ getNum r "temperature" < 20 →
            assign_crop r = "wheat")
        ∧ (¬(getNum r "ph" > 7 ∧ getNum r "temperature" < 20) →
            (getNum r "humidity" > 80 ∧ getNum r "temperature" > 25 →
              assign_crop r = "banana")
          ∧ (¬(getNum r "humidity" > 80 ∧ getNum r "temperature" > 25) →
              assign_crop r = "chickpea"))))))
  ∧ (∀ df : DataFrame, ¬("crop" ∈ df.cols ∨ "label" ∈ df.cols) →
      (ensureLabels df).rows =
        df.rows.map (fun row => row ++ [("crop", Cell.str (assign_crop row))])) := by
  constructor
  · unfold assign_crop
    split_ifs with h1 h2 h3 h4 h5 <;> simp_all
  · intro df h
    unfold ensureLabels addCropColumn
    rw [if_neg h]

/-- C8 witness: concrete rows exercising the first and the default rule,
and a concrete frame receiving the synthesized column. -/
theorem claim8_witness :
    assign_crop [("ph", Cell.num 5), ("humidity", Cell.num 80)] = "rice"
  ∧ assign_crop [("ph", Cell.num 7), ("humidity", Cell.num 60),
      ("temperature", Cell.num 25), ("nitrogen", Cell.num 10),
      ("potassium", Cell.num 10)] = "chickpea"
  ∧ (ensureLabels ⟨["ph"], [[("ph", Cell.num 5)]]⟩).rows =
      [[("ph", Cell.num 5), ("crop", Cell.str "chickpea")]] := by
  refine ⟨(claim8_label_rule_chain _).1.1 (by decide), ?_, ?_⟩
  · exact ((((((claim8_label_rule_chain _).1.2 (by decide)).2
      (by decide)).2 (by decide)).2 (by decide)).2 (by decide))
  · have h := (claim8_label_rule_chain []).2 ⟨["ph"], [[("ph", Cell.num 5)]]⟩
      (by decide)
    rw [h]
    decide

/-- C7: training never propagates data-quality failures: missing canonical
features after alias mapping yield the no-model quadruple, and so does a
classifier fit that throws, for every input table. -/
theorem claim7_training_absorbs_failures
    (fitRF : List (List ℚ) → List String → Except String Model)
    (sqrtFn : ℚ → ℚ) (df : DataFrame) (g : RNG) :
    (missingFeatures (renameColumns df) ≠ [] →
      train_crop_recommendation_model fitRF sqrtFn df g = noModelResult)
  ∧ (∀ prepared e, trainData df g = some prepared →
      fitRF (trainSplit sqrtFn prepared).1 (trainSplit sqrtFn prepared).2.2.1 =
        Except.error e →
      train_crop_recommendation_model fitRF sqrtFn df g = noModelResult) := by
  constructor
  · intro h
    unfold train_crop_recommendation_model trainData
    rw [if_neg h]
  · intro prepared e h1 h2
    unfold train_crop_recommendation_model
    rw [h1]
    dsimp only
    rw [h2]

/-- C7 witness: the missing-feature table and a throwing fit on the
sample table both produce the concrete no-model quadruple. -/
theorem claim7_witness :
    train_crop_recommendation_model fitFail (fun q => q) dfMissing ⟨1⟩ =
      noModelResult
  ∧ train_crop_recommendation_model fitFail (fun q => q) sampleDF ⟨1⟩ =
      noModelResult := by
  constructor
  · exact (claim7_training_absorbs_failures fitFail (fun q => q) dfMissing ⟨1⟩).1
      (by decide)
  · exact (claim7_training_absorbs_failures fitFail (fun q => q) sampleDF ⟨1⟩).2
      (augmentIfDegenerate (ensureLabels (renameColumns sampleDF)) ⟨1⟩) "boom"
      (by decide) rfl

/-- C3: the train-then-predict pipeline is a pure function of the training
table, the generator seed state, and the observation: equal inputs give
identical accuracy, ranked crops with probabilities, and parameter match
details, also when the synthetic-augmentation path runs. -/
theorem claim3_pipeline_deterministic
    (fitRF : List (List ℚ) → List String → Except String Model)
    (sqrtFn : ℚ → ℚ) (df1 df2 : DataFrame) (g1 g2 : RNG)
    (in1 in2 : List (String × ℚ))
    (hdf : df1 = df2) (hg : g1 = g2) (hin : in1 = in2) :
    recommendPipeline fitRF sqrtFn df1 g1 in1 =
      recommendPipeline fitRF sqrtFn df2 g2 in2 := by
  rw [hdf, hg, hin]

/-- C3 witness: two runs on the augmentation-triggering table with equal
seeds and observations agree. -/
theorem claim3_witness :
    recommendPipeline fitConst (fun q => q) degenerateDF ⟨7⟩ obsComplete =
      recommendPipeline fitConst (fun q => q) degenerateDF ⟨7⟩ obsComplete :=
  claim3_pipeline_deterministic fitConst (fun q => q) degenerateDF degenerateDF
    ⟨7⟩ ⟨7⟩ obsComplete obsComplete rfl rfl rfl

/-- C1 (code evaluation at the failing input): predict_crop assembles the
raw, unscaled observation values, and for the concrete training table
sampleDF the standardization fitted on the training features maps the
observation obsAtMean to a different row than the raw one for every
choice of per-feature standard deviations — so the prediction path does
not reapply the training-time standardization before calling the
classifier. -/
theorem claim1_raw_input_not_standardized (stds : List ℚ) :
    prepareInput required_features obsAtMean = some obsAtMeanVals
  ∧ scaleRow (colMeans (featureMatrix sampleDF)) stds obsAtMeanVals ≠
      obsAtMeanVals := by
  have hX : featureMatrix sampleDF = sampleMatrix := by decide
  have heq : colMeans sampleMatrix =
      [listMean (colValues sampleMatrix 0), listMean (colValues sampleMatrix 1),
       listMean (colValues sampleMatrix 2), listMean (colValues sampleMatrix 3),
       listMean (colValues sampleMatrix 4), listMean (colValues sampleMatrix 5)] := rfl
  have h0 : colValues sampleMatrix 0 = [40, 60] := by decide
  have h1 : colValues sampleMatrix 1 = [30, 40] := by decide
  have h2 : colValues sampleMatrix 2 = [30, 40] := by decide
  have h3 : colValues sampleMatrix 3 = [20, 25] := by decide
  have h4 : colValues sampleMatrix 4 = [60, 65] := by decide
  have h5 : colValues sampleMatrix 5 = [7, 6] := by decide
  have hm : colMeans (featureMatrix sampleDF) = [50, 35, 35, 45/2, 125/2, 13/2] := by
    rw [hX, heq, h0, h1, h2, h3, h4, h5]
    norm_num [listMean]
  constructor
  · rfl
  · intro hcontra
    cases stds with
    | nil => simp [scaleRow, obsAtMeanVals] at hcontra
    | cons s rest =>
      rw [hm] at hcontra
      simp only [scaleRow, obsAtMeanVals, List.zip_cons_cons,
        List.zipWith_cons_cons, List.cons.injEq] at hcontra
      have h0 := hcontra.1
      rw [sub_self, zero_div] at h0
      exact absurd h0 (by norm_num)

theorem predict_crop_eq (model : Model) (features crops : List String)
    (input_data : List (String × ℚ)) (vals : List ℚ)
    (hin : prepareInput features input_data = some vals) :
    predict_crop model features crops input_data =
      ((topCropProbs crops (model.predictProbaRow vals)).map Prod.fst,
       (topCropProbs crops (model.predictProbaRow vals)).map Prod.snd,
       addUnknownInfo features (topCropProbs crops (model.predictProbaRow vals))
         (addCoveredInfo input_data features
           ((topCropProbs crops (model.predictProbaRow vals)).map Prod.fst) [])) := by
  unfold predict_crop
  rw [hin]

theorem matchPercent_within (lo hi v : ℚ) (h1 : lo ≤ v) (h2 : v ≤ hi) :
    matchPercent lo hi v = 100 := by
  unfold matchPercent
  rw [if_neg (not_lt.2 h1), if_neg (not_lt.2 h2)]
  norm_num [pyRound]

theorem cropMatches_ne_nil_of_covered (c : String)
    (ranges : List (String × ℚ × ℚ)) (input : List (String × ℚ))
    (h : ideal_params c = some ranges) :
    cropMatches ranges input required_features ≠ [] := by
  unfold ideal_params at h
  split_ifs at h <;>
    first
      | (cases h; simp [cropMatches, required_features, List.lookup])
      | cases h

theorem topC5_eval :
    topCropProbs cropsC5 (modelC5.predictProbaRow obsC5Vals) =
      [("banana", 50), ("rice", 30), ("wheat", 20)] := by
  norm_num [topCropProbs, sortedCropProbs, modelC5, cropsC5, List.enum,
    List.enumFrom, List.insertionSort, List.orderedInsert, rankRel]

theorem topC10_eval :
    topCropProbs cropsC5 (modelC10.predictProbaRow obsC5Vals) =
      [("wheat", 50), ("rice", 30), ("banana", 20)] := by
  norm_num [topCropProbs, sortedCropProbs, modelC10, cropsC5, List.enum,
    List.enumFrom, List.insertionSort, List.orderedInsert, rankRel]

theorem cropMatchesC5_eval :
    cropMatches riceRanges obsC5 required_features =
      [("nitrogen", 100), ("phosphorus", 100), ("potassium", 100),
       ("temperature", 100), ("humidity", 100), ("ph", 90)] := by
  have hph : matchPercent (11/2) (13/2) (109/20) = 90 := by
    unfold matchPercent
    rw [if_pos (by norm_num : (109/20 : ℚ) < 11/2),
      max_eq_right (by norm_num :
        (0:ℚ) ≤ 100 - (11/2 - 109/20) / ((13/2 - 11/2) / 2) * 100)]
    norm_num [pyRound]
  have hn : matchPercent 80 120 100 = 100 :=
    matchPercent_within _ _ _ (by norm_num) (by norm_num)
  have hp2 : matchPercent 40 60 50 = 100 :=
    matchPercent_within _ _ _ (by norm_num) (by norm_num)
  have ht : matchPercent 22 32 27 = 100 :=
    matchPercent_within _ _ _ (by norm_num) (by norm_num)
  have hh : matchPercent 70 90 80 = 100 :=
    matchPercent_within _ _ _ (by norm_num) (by norm_num)
  simp [cropMatches, required_features, riceRanges, List.lookup, lookupQ,
    obsC5, hn, hp2, ht, hh, hph]

theorem coveredInfoC5_eval :
    (coveredInfo riceRanges obsC5 required_features).overall = 98 := by
  unfold coveredInfo
  rw [cropMatchesC5_eval]
  norm_num [pyRound]

theorem randIntR_bounds (lo hi : ℤ) (g : RNG) (h : lo < hi) :
    lo ≤ (randIntR lo hi g).1 ∧ (randIntR lo hi g).1 < hi := by
  simp only [randIntR]
  have h1 := Int.emod_nonneg ((nextNat g).1 : ℤ) (by omega : hi - lo ≠ 0)
  have h2 := Int.emod_lt_of_pos ((nextNat g).1 : ℤ) (by omega : 0 < hi - lo)
  omega

theorem uniformR_bounds (lo hi : ℚ) (g : RNG) (h : lo < hi) :
    lo ≤ (uniformR lo hi g).1 ∧ (uniformR lo hi g).1 < hi := by
  simp only [uniformR]
  have h1 : (0:ℚ) ≤ (((nextNat g).1 % 1048576 : ℕ) : ℚ) / 1048576 := by
    positivity
  have h2 : (((nextNat g).1 % 1048576 : ℕ) : ℚ) / 1048576 < 1 := by
    rw [div_lt_one (by norm_num)]
    exact_mod_cast Nat.mod_lt _ (by norm_num)
  constructor
  · nlinarith [mul_nonneg h1 (le_of_lt (sub_pos.2 h))]
  · nlinarith [mul_lt_of_lt_one_left (sub_pos.2 h) h2]

theorem choiceR_mem (l : List String) (g : RNG) (h : l ≠ []) :
    (choiceR l g).1 ∈ l := by
  simp only [choiceR]
  have hl : 0 < l.length := List.length_pos.2 h
  have hlt : (nextNat g).1 % l.length < l.length := Nat.mod_lt _ hl
  rw [List.getD_eq_getElem l _ hlt]
  exact List.getElem_mem hlt

theorem syntheticRow_bounds (cropCol : String) (g : RNG)
    (hc : cropCol ∉ required_features) :
    syntheticRowInBounds cropCol (syntheticRow cropCol g).1 := by
  simp only [required_features, List.mem_cons, List.not_mem_nil, or_false,
    not_or] at hc
  obtain ⟨hcn, hcp, hck, hct, hch, hcph⟩ := hc
  unfold syntheticRowInBounds
  simp only [syntheticRow]
  generalize e1 : randIntR 0 140 g = np
  generalize e2 : randIntR 5 145 np.2 = pp
  generalize e3 : randIntR 5 205 pp.2 = kp
  generalize e4 : uniformR (883/100) (4368/100) kp.2 = tp
  generalize e5 : uniformR (1425/100) (9998/100) tp.2 = hp
  generalize e6 : uniformR (35/10) (994/100) hp.2 = php
  generalize e7 : choiceR syntheticCropChoices php.2 = cp
  have hb1 := randIntR_bounds 0 140 g (by norm_num)
  have hb2 := randIntR_bounds 5 145 np.2 (by norm_num)
  have hb3 := randIntR_bounds 5 205 pp.2 (by norm_num)
  have hb4 := uniformR_bounds (883/100) (4368/100) kp.2 (by norm_num)
  have hb5 := uniformR_bounds (1425/100) (9998/100) tp.2 (by norm_num)
  have hb6 := uniformR_bounds (35/10) (994/100) hp.2 (by norm_num)
  have hb7 := choiceR_mem syntheticCropChoices php.2 (by simp [syntheticCropChoices])
  rw [e1] at hb1
  rw [e2] at hb2
  rw [e3] at hb3
  rw [e4] at hb4
  rw [e5] at hb5
  rw [e6] at hb6
  rw [e7] at hb7
  have hkn : (cropCol == "nitrogen") = false := beq_eq_false_iff_ne.mpr hcn
  have hkp : (cropCol == "phosphorus") = false := beq_eq_false_iff_ne.mpr hcp
  have hkk : (cropCol == "potassium") = false := beq_eq_false_iff_ne.mpr hck
  have hkt : (cropCol == "temperature") = false := beq_eq_false_iff_ne.mpr hct
  have hkh : (cropCol == "humidity") = false := beq_eq_false_iff_ne.mpr hch
  have hkph : (cropCol == "ph") = false := beq_eq_false_iff_ne.mpr hcph
  refine ⟨?_, ?_, ?_, ?_, ?_, ?_, ?_, ?_, ?_, ?_, ?_, ?_, ?_⟩ <;>
    simp [getNum, getStr, List.lookup, hkn, hkp, hkk, hkt, hkh, hkph,
      beq_self_eq_true]
  · exact_mod_cast hb1.1
  · exact_mod_cast hb1.2
  · exact_mod_cast hb2.1
  · exact_mod_cast hb2.2
  · exact_mod_cast hb3.1
  · exact_mod_cast hb3.2
  · exact hb4.1
  · exact hb4.2
  · exact hb5.1
  · exact hb5.2
  · exact hb6.1
  · exact hb6.2
  · exact hb7

theorem syntheticRows_length (cropCol : String) (n : ℕ) (g : RNG) :
    (syntheticRows cropCol n g).1.length = n := by
  induction n generalizing g with
  | zero => rfl
  | succ m ih => simp [syntheticRows, ih]

theorem syntheticRows_mem (cropCol : String) (hc : cropCol ∉ required_features) :
    ∀ (n : ℕ) (g : RNG) (r : DFRow), r ∈ (syntheticRows cropCol n g).1 →
      syntheticRowInBounds cropCol r := by
  intro n
  induction n with
  | zero => intro g r h; cases h
  | succ m ih =>
    intro g r h
    simp only [syntheticRows, List.mem_cons] at h
    rcases h with rfl | h
    · exact syntheticRow_bounds cropCol g hc
    · exact ih _ r h

theorem sortedCropProbs_perm (cs : List String) (ps : List ℚ) :
    List.Perm (sortedCropProbs cs ps)
      (((cs.zip (ps.map (fun p => p * 100))).enum).map (fun p => (p.2, p.1))) :=
  List.perm_insertionSort rankRel _

theorem sorted_rank (cs : List String) (ps : List ℚ) :
    List.Sorted rankRel (sortedCropProbs cs ps) :=
  List.sorted_insertionSort rankRel _

theorem mem_topCropProbs (cs : List String) (ps : List ℚ) (x : String × ℚ)
    (hx : x ∈ topCropProbs cs ps) : ∃ p ∈ ps, x.2 = p * 100 := by
  unfold topCropProbs at hx
  obtain ⟨y, hy, rfl⟩ := List.mem_map.mp (List.mem_of_mem_take hx)
  have hy2 := (sortedCropProbs_perm cs ps).mem_iff.mp hy
  obtain ⟨z, hz, hzy⟩ := List.mem_map.mp hy2
  have hz2 : (cs.zip (ps.map fun p => p * 100)).get? z.1 = some z.2 :=
    List.mem_enum_iff_get?.mp hz
  have hz3 : z.2 ∈ cs.zip (ps.map fun p => p * 100) := List.get?_mem hz2
  have hsnd := (List.of_mem_zip hz3).2
  obtain ⟨p, hp, hpe⟩ := List.mem_map.mp hsnd
  refine ⟨p, hp, ?_⟩
  rw [← hzy]
  exact hpe.symm

theorem scores_sorted (cs : List String) (ps : List ℚ) :
    List.Sorted (· ≥ ·) ((topCropProbs cs ps).map Prod.snd) := by
  have h1 : List.Pairwise (fun a b : (String × ℚ) × ℕ => a.1.2 ≥ b.1.2)
      (sortedCropProbs cs ps) := by
    refine (sorted_rank cs ps).imp ?_
    intro a b hab
    rcases hab with h | ⟨h, _⟩
    · exact le_of_lt h
    · exact le_of_eq h.symm
  have h2 : List.Pairwise (fun a b : String × ℚ => a.2 ≥ b.2)
      ((sortedCropProbs cs ps).map Prod.fst) :=
    List.Pairwise.map _ (fun a b hab => hab) h1
  have h3 : List.Pairwise (fun a b : String × ℚ => a.2 ≥ b.2)
      (topCropProbs cs ps) :=
    h2.sublist (List.take_sublist 5 _)
  exact List.Pairwise.map _ (fun a b hab => hab) h3

theorem sortedCropProbs_stable_ties (cs : List String) (ps : List ℚ)
    (i j : ℕ) (a b : (String × ℚ) × ℕ) (hij : i < j)
    (ha : (sortedCropProbs cs ps)[i]? = some a)
    (hb : (sortedCropProbs cs ps)[j]? = some b)
    (heq : a.1.2 = b.1.2) : a.2 < b.2 := by
  obtain ⟨hi, hae⟩ := List.getElem?_eq_some_iff.mp ha
  obtain ⟨hj, hbe⟩ := List.getElem?_eq_some_iff.mp hb
  have hrel := List.pairwise_iff_getElem.mp (sorted_rank cs ps) i j hi hj hij
  rw [hae, hbe] at hrel
  rcases hrel with h | ⟨hpe, hle⟩
  · rw [heq] at h
    exact absurd h (lt_irrefl _)
  · refine lt_of_le_of_ne hle ?_
    have hnd0 : ((((cs.zip (ps.map fun p => p * 100)).enum).map
        (fun p => (p.2, p.1))).map Prod.snd).Nodup := by
      rw [List.map_map]
      have hco : (Prod.snd ∘ fun p : ℕ × (String × ℚ) => (p.2, p.1)) =
          Prod.fst := rfl
      rw [hco]
      exact List.nodup_enum_map_fst _
    have hnd : (((sortedCropProbs cs ps)).map Prod.snd).Nodup :=
      (((sortedCropProbs_perm cs ps).map Prod.snd).nodup_iff).mpr hnd0
    have hi2 : i < ((sortedCropProbs cs ps).map Prod.snd).length := by
      simpa using hi
    have hj2 : j < ((sortedCropProbs cs ps).map Prod.snd).length := by
      simpa using hj
    have hne := List.pairwise_iff_getElem.mp hnd i j hi2 hj2 hij
    rw [List.getElem_map, List.getElem_map, hae, hbe] at hne
    exact hne

/-- C5 (amended): for every recommended covered crop the reported overall
percentage is the Python round (half to even) of the arithmetic mean of
the rounded per-parameter match percentages; for a recommended crop with
no ideal ranges the reported entry has overall = round of the classifier
probability on the 0-100 scale and every per-parameter match Unknown. -/
theorem claim5_overall_match (model : Model) (features crops : List String)
    (input_data : List (String × ℚ)) (vals : List ℚ) (c : String)
    (hin : prepareInput features input_data = some vals) :
    (∀ ranges, ideal_params c = some ranges →
      cropMatches ranges input_data features ≠ [] →
      c ∈ (predict_crop model features crops input_data).1 →
      (predict_crop model features crops input_data).2.2.lookup c =
        some (coveredInfo ranges input_data features)
      ∧ (coveredInfo ranges input_data features).overall =
          pyRound ((((cropMatches ranges input_data features).map Prod.snd).sum : ℚ) /
            (cropMatches ranges input_data features).length))
  ∧ (ideal_params c = none →
      ∀ p, (topCropProbs crops (model.predictProbaRow vals)).lookup c = some p →
        (predict_crop model features crops input_data).2.2.lookup c =
          some (unknownInfo features p)
        ∧ (unknownInfo features p).overall = pyRound p
        ∧ (unknownInfo features p).matchesDict =
            features.map (fun f => (f, MatchVal.unknown))) := by
  have hpred := predict_crop_eq model features crops input_data vals hin
  constructor
  · intro ranges h1 h2 hmem
    rw [hpred] at hmem ⊢
    refine ⟨?_, rfl⟩
    apply lookup_addUnknownInfo_some
    exact lookup_addCoveredInfo_some input_data features c ranges h1 h2 _ []
      (Or.inl hmem)
  · intro h1 p hp
    rw [hpred]
    refine ⟨?_, rfl, rfl⟩
    apply lookup_addUnknownInfo_new
    · exact lookup_addCoveredInfo_none input_data features c h1 _ [] rfl
    · exact hp

/-- C5 counterexample: at the concrete run with obsC5, rice's reported
per-parameter matches are 100,100,100,100,100,90 whose mean is 590/6,
but the reported overall is 98, the rounded mean — not the mean. -/
theorem claim5_counterexample :
    (predict_crop modelC5 required_features cropsC5 obsC5).2.2.lookup "rice" =
      some (coveredInfo riceRanges obsC5 required_features)
  ∧ (coveredInfo riceRanges obsC5 required_features).matchesDict =
      [("nitrogen", MatchVal.pct 100), ("phosphorus", MatchVal.pct 100),
       ("potassium", MatchVal.pct 100), ("temperature", MatchVal.pct 100),
       ("humidity", MatchVal.pct 100), ("ph", MatchVal.pct 90)]
  ∧ (((coveredInfo riceRanges obsC5 required_features).overall : ℚ) = 98 ∧
      (98 : ℚ) ≠ (100 + 100 + 100 + 100 + 100 + 90) / 6) := by
  refine ⟨?_, ?_, ?_, ?_⟩
  · rw [predict_crop_eq modelC5 required_features cropsC5 obsC5 obsC5Vals rfl]
    apply lookup_addUnknownInfo_some
    refine lookup_addCoveredInfo_some obsC5 required_features "rice" riceRanges
      rfl ?_ _ [] (Or.inl ?_)
    · rw [cropMatchesC5_eval]
      simp
    · rw [topC5_eval]
      simp
  · unfold coveredInfo
    rw [cropMatchesC5_eval]
    rfl
  · exact_mod_cast coveredInfoC5_eval
  · norm_num

/-- C5 witness: the amended claim applied at the concrete run — rice's
covered entry and banana's Unknown entry with overall 50. -/
theorem claim5_witness :
    (predict_crop modelC5 required_features cropsC5 obsC5).2.2.lookup "rice" =
      some (coveredInfo riceRanges obsC5 required_features)
  ∧ (predict_crop modelC5 required_features cropsC5 obsC5).2.2.lookup "banana" =
      some (unknownInfo required_features 50) := by
  have hr := claim5_overall_match modelC5 required_features cropsC5 obsC5
    obsC5Vals "rice" rfl
  have hb := claim5_overall_match modelC5 required_features cropsC5 obsC5
    obsC5Vals "banana" rfl
  constructor
  · refine (hr.1 riceRanges rfl ?_ ?_).1
    · rw [cropMatchesC5_eval]; simp
    · rw [predict_crop_eq modelC5 required_features cropsC5 obsC5 obsC5Vals rfl,
        topC5_eval]
      simp
  · refine (hb.2 rfl 50 ?_).1
    rw [topC5_eval]
    simp [List.lookup]

/-- C10: for a crop with hard-coded ideal ranges, the reported parameter
match detail is a function of the observation and the static range table
only: two runs with arbitrary classifier outputs and class lists report
the identical entry for that crop, provided it is recommended in both. -/
theorem claim10_match_detail_independent (m1 m2 : Model)
    (crops1 crops2 : List String) (input_data : List (String × ℚ))
    (vals1 vals2 : List ℚ) (c : String) (ranges : List (String × ℚ × ℚ))
    (h1 : ideal_params c = some ranges)
    (hin1 : prepareInput required_features input_data = some vals1)
    (hin2 : prepareInput required_features input_data = some vals2)
    (hm1 : c ∈ (predict_crop m1 required_features crops1 input_data).1)
    (hm2 : c ∈ (predict_crop m2 required_features crops2 input_data).1) :
    (predict_crop m1 required_features crops1 input_data).2.2.lookup c =
      (predict_crop m2 required_features crops2 input_data).2.2.lookup c := by
  have h2 := cropMatches_ne_nil_of_covered c ranges input_data h1
  have e1 := predict_crop_eq m1 required_features crops1 input_data vals1 hin1
  have e2 := predict_crop_eq m2 required_features crops2 input_data vals2 hin2
  rw [e1] at hm1 ⊢
  rw [e2] at hm2 ⊢
  rw [lookup_addUnknownInfo_some _ _ _ _ _
    (lookup_addCoveredInfo_some input_data required_features c ranges h1 h2 _ []
      (Or.inl hm1)),
    lookup_addUnknownInfo_some _ _ _ _ _
    (lookup_addCoveredInfo_some input_data required_features c ranges h1 h2 _ []
      (Or.inl hm2))]

/-- C10 witness: two runs over the same observation with reshuffled
probabilities report the same entry for rice. -/
theorem claim10_witness :
    (predict_crop modelC5 required_features cropsC5 obsC5).2.2.lookup "rice" =
      (predict_crop modelC10 required_features cropsC5 obsC5).2.2.lookup "rice" := by
  apply claim10_match_detail_independent modelC5 modelC10 cropsC5 cropsC5 obsC5
    obsC5Vals obsC5Vals "rice" riceRanges rfl rfl rfl
  · rw [predict_crop_eq modelC5 required_features cropsC5 obsC5 obsC5Vals rfl,
      topC5_eval]
    simp
  · rw [predict_crop_eq modelC10 required_features cropsC5 obsC5 obsC5Vals rfl,
      topC10_eval]
    simp

/-- C2 (amended): predict_crop performs no domain validation: a query
missing a required field yields the caught-exception empty result
([], [], empty) rather than a raised InvalidObservation error, and an
out-of-domain value is scored like any other (see the counterexample). -/
theorem claim2_no_invalid_observation_error (model : Model)
    (features crops : List String) (input_data : List (String × ℚ))
    (h : prepareInput features input_data = none) :
    predict_crop model features crops input_data = ([], [], []) := by
  unfold predict_crop
  rw [h]

/-- C2 counterexample: with ph = 15, outside the 0-14 domain, predict_crop
returns a full ranked recommendation list instead of raising or returning
InvalidObservation. -/
theorem claim2_counterexample :
    (predict_crop modelC5 required_features cropsC5 obsPh15).1 =
      ["banana", "rice", "wheat"] := by
  rw [predict_crop_eq modelC5 required_features cropsC5 obsPh15 obsPh15Vals rfl]
  have ht : topCropProbs cropsC5 (modelC5.predictProbaRow obsPh15Vals) =
      [("banana", 50), ("rice", 30), ("wheat", 20)] := topC5_eval
  rw [ht]
  rfl

/-- C2 witness: a query missing the ph field returns the empty triple. -/
theorem claim2_witness :
    predict_crop modelC5 required_features cropsC5 obsMissingPh =
      ([], [], []) :=
  claim2_no_invalid_observation_error modelC5 required_features cropsC5
    obsMissingPh rfl

/-- C9: whenever the labels are degenerate (fewer than two distinct
values), exactly the 50-row synthetic batch is appended before fitting,
and every appended row has each feature drawn inside its published bounds
with the crop taken from the full 23-crop list. -/
theorem claim9_synthetic_augmentation (df : DataFrame) (g : RNG)
    (hdeg : (labelValues df).dedup.length < 2)
    (hc : cropColumn df ∉ required_features) :
    augmentIfDegenerate df g =
      { df with rows := df.rows ++ (syntheticRows (cropColumn df) 50 g).1 }
  ∧ (syntheticRows (cropColumn df) 50 g).1.length = 50
  ∧ ∀ r ∈ (syntheticRows (cropColumn df) 50 g).1,
      syntheticRowInBounds (cropColumn df) r := by
  refine ⟨?_, syntheticRows_length _ 50 g, ?_⟩
  · unfold augmentIfDegenerate
    rw [if_pos hdeg]
  · intro r hr
    exact syntheticRows_mem (cropColumn df) hc 50 g r hr

/-- C9 witness: on the degenerate one-row table the augmentation appends
the 50 generated rows, and the first generated row is in bounds. -/
theorem claim9_witness :
    augmentIfDegenerate degenerateDF ⟨3⟩ =
      { degenerateDF with
        rows := degenerateDF.rows ++
          (syntheticRows (cropColumn degenerateDF) 50 ⟨3⟩).1 }
  ∧ (syntheticRows (cropColumn degenerateDF) 50 ⟨3⟩).1.length = 50
  ∧ syntheticRowInBounds (cropColumn degenerateDF)
      ((syntheticRows (cropColumn degenerateDF) 50 ⟨3⟩).1.getD 0 []) := by
  obtain ⟨ha, hl, hmem⟩ := claim9_synthetic_augmentation degenerateDF ⟨3⟩
    (by decide) (by decide)
  refine ⟨ha, hl, hmem _ ?_⟩
  have hpos : 0 < (syntheticRows (cropColumn degenerateDF) 50 ⟨3⟩).1.length := by
    rw [hl]
    norm_num
  rw [List.getD_eq_getElem _ _ hpos]
  exact List.getElem_mem hpos

/-- C6: the recommendation list holds at most 5 crops with scores in
[0, 100] (for a model emitting probabilities in [0, 1]), sorted by
probability descending, and exact ties are broken by the position in the
sorted class-label list: an earlier-position entry with an equal score
sorts strictly before a later one. -/
theorem claim6_ranking (model : Model) (features crops : List String)
    (input_data : List (String × ℚ))
    (hvalid : ∀ vals, ∀ p ∈ model.predictProbaRow vals, 0 ≤ p ∧ p ≤ 1)
    (cs : List String) (ps : List ℚ) (i j : ℕ) (a b : (String × ℚ) × ℕ)
    (hij : i < j) (ha : (sortedCropProbs cs ps)[i]? = some a)
    (hb : (sortedCropProbs cs ps)[j]? = some b) (heq : a.1.2 = b.1.2) :
    (predict_crop model features crops input_data).1.length ≤ 5
  ∧ (predict_crop model features crops input_data).2.1.length ≤ 5
  ∧ (∀ q ∈ (predict_crop model features crops input_data).2.1,
      0 ≤ q ∧ q ≤ 100)
  ∧ List.Sorted (· ≥ ·) (predict_crop model features crops input_data).2.1
  ∧ a.2 < b.2 := by
  refine ?_  -- split on the input branch for the first four parts
  have hties := sortedCropProbs_stable_ties cs ps i j a b hij ha hb heq
  cases hp : prepareInput features input_data with
  | none =>
    unfold predict_crop
    rw [hp]
    exact ⟨by simp, by simp, by simp, by simp, hties⟩
  | some vals =>
    rw [predict_crop_eq model features crops input_data vals hp]
    refine ⟨?_, ?_, ?_, ?_, hties⟩
    · simp only [List.length_map, topCropProbs, List.length_take]
      exact min_le_left _ _
    · simp only [List.length_map, topCropProbs, List.length_take]
      exact min_le_left _ _
    · intro q hq
      obtain ⟨x, hx, rfl⟩ := List.mem_map.mp hq
      obtain ⟨p, hp2, hpe⟩ := mem_topCropProbs crops _ x hx
      have hbnd := hvalid vals p hp2
      rw [hpe]
      constructor
      · nlinarith [hbnd.1]
      · nlinarith [hbnd.2]
    · exact scores_sorted crops _

theorem sortedC6_eval :
    sortedCropProbs cropsC5 [1/2, 1/4, 1/4] =
      [(("banana", 50), 0), (("rice", 25), 1), (("wheat", 25), 2)] := by
  norm_num [sortedCropProbs, cropsC5, List.enum, List.enumFrom,
    List.insertionSort, List.orderedInsert, rankRel]

/-- C6 witness: the tied classes rice and wheat (probability 1/4 each)
keep their sorted-label order, and the concrete run satisfies the length
and sortedness bounds. -/
theorem claim6_witness :
    (predict_crop modelC6 required_features cropsC5 obsComplete).1.length ≤ 5
  ∧ (predict_crop modelC6 required_features cropsC5 obsComplete).2.1.length ≤ 5
  ∧ List.Sorted (· ≥ ·)
      (predict_crop modelC6 required_features cropsC5 obsComplete).2.1
  ∧ ((("rice", (25:ℚ)), 1) : (String × ℚ) × ℕ).2 <
      ((("wheat", (25:ℚ)), 2) : (String × ℚ) × ℕ).2 := by
  have hv : ∀ vals, ∀ p ∈ modelC6.predictProbaRow vals, 0 ≤ p ∧ p ≤ 1 := by
    intro vals p hp
    simp only [modelC6, List.mem_cons, List.not_mem_nil, or_false] at hp
    rcases hp with rfl | rfl | rfl <;> norm_num
  have h := claim6_ranking modelC6 required_features cropsC5 obsComplete hv
    cropsC5 [1/2, 1/4, 1/4] 1 2 (("rice", 25), 1) (("wheat", 25), 2)
    (by norm_num) (by rw [sortedC6_eval]; rfl) (by rw [sortedC6_eval]; rfl) rfl
  exact ⟨h.1, h.2.1, h.2.2.2.1, h.2.2.2.2⟩

end SmartFarm
